import Mathlib

/-!
Shallow embedding of the real-estate CRM domain layer
(`crm/constants.py`, `crm/models.py`, `crm/services.py`, `crm/forms.py`).

Database rows are Lean structures, the database is a structure of lists,
Django querysets become lists (with the model's default `Meta.ordering`
applied by `objects_all`, as Django does), and form `clean_*` methods
become `Except`-valued functions.  Dates and timestamps are day numbers
(`Nat`); `date.today()` is an explicit `today : Nat` parameter.
-/

namespace CRM

/-! ### constants.py -/

inductive CollaboratorRole
  | AGENT | MANAGER | ADMIN | ASSISTANT
  deriving DecidableEq, Repr

inductive PropertyType
  | HOUSE | CONDO | TOWNHOUSE | LAND | COMMERCIAL
  deriving DecidableEq, Repr

inductive PropertyStatus
  | AVAILABLE | PENDING | SOLD | RENTED | WITHDRAWN
  deriving DecidableEq, Repr

inductive ClientType
  | BUYER | SELLER | BOTH
  deriving DecidableEq, Repr

inductive TaskStatus
  | PENDING | IN_PROGRESS | COMPLETE | CANCELLED
  deriving DecidableEq, Repr

inductive TaskPriority
  | LOW | MEDIUM | HIGH
  deriving DecidableEq, Repr

/-- The string stored in the database `priority` column
(`TaskPriority.LOW = 'LOW'` etc. in `constants.py`). -/
def TaskPriority.storage : TaskPriority → String
  | .LOW => "LOW"
  | .MEDIUM => "MEDIUM"
  | .HIGH => "HIGH"

def ValidationConstants.MIN_PHONE_DIGITS : Nat := 10

/-! ### models.py : rows -/

structure Collaborator where
  id : Nat
  name : String
  email : String
  role : CollaboratorRole
  created_at : Nat
  updated_at : Nat
  deriving DecidableEq, Repr

structure Property where
  id : Nat
  address : String
  price : Int
  property_type : PropertyType
  status : PropertyStatus
  listing_date : Nat
  collaborator : Option Nat
  bedrooms : Option Int
  bathrooms : Option Int
  square_feet : Option Int
  description : String
  created_at : Nat
  updated_at : Nat
  deriving DecidableEq, Repr

structure Client where
  id : Nat
  name : String
  email : String
  phone : String
  client_type : ClientType
  properties_interested : List Nat
  properties_owned : List Nat
  notes : String
  created_date : Nat
  created_at : Nat
  updated_at : Nat
  deriving DecidableEq, Repr

structure Task where
  id : Nat
  title : String
  description : String
  due_date : Nat
  status : TaskStatus
  priority : TaskPriority
  related_property : Option Nat
  client : Option Nat
  assigned_to : Option Nat
  created_at : Nat
  updated_at : Nat
  deriving DecidableEq, Repr

/-- The backing store: one table per model. -/
structure DB where
  collaborators : List Collaborator
  properties : List Property
  clients : List Client
  tasks : List Task

/-! ### Default orderings (`Meta.ordering`)

The database backend compares `CharField` columns byte-lexicographically,
so ordering on `-priority` compares the stored strings.  `strLt` is
byte-wise lexicographic `<` on character lists. -/

def strLt : List Char → List Char → Bool
  | [], [] => false
  | [], _ :: _ => true
  | _ :: _, [] => false
  | a :: as, b :: bs =>
    if a.toNat < b.toNat then true
    else if b.toNat < a.toNat then false
    else strLt as bs

/-- Embeds `Property.Meta.ordering = ['-listing_date']`: `a` may precede `b`
iff `a.listing_date ≥ b.listing_date`. -/
def propertyOrder (a b : Property) : Prop :=
  b.listing_date ≤ a.listing_date

instance : DecidableRel propertyOrder := fun a b =>
  inferInstanceAs (Decidable (b.listing_date ≤ a.listing_date))

instance : IsTotal Property propertyOrder :=
  ⟨fun a b => (Nat.le_total b.listing_date a.listing_date).imp id id⟩

instance : IsTrans Property propertyOrder :=
  ⟨fun _ _ _ hab hbc => Nat.le_trans hbc hab⟩

/-- Embeds `Task.Meta.ordering = ['due_date', '-priority']`: `a` may precede `b`
iff `a.due_date < b.due_date`, or the due dates are equal and `a`'s stored
priority string is not lexicographically below `b`'s (descending on the
column value). -/
def taskOrder (a b : Task) : Prop :=
  a.due_date < b.due_date ∨
    (a.due_date = b.due_date ∧
      strLt a.priority.storage.data b.priority.storage.data = false)

instance : DecidableRel taskOrder := fun a b =>
  inferInstanceAs (Decidable (a.due_date < b.due_date ∨
    (a.due_date = b.due_date ∧
      strLt a.priority.storage.data b.priority.storage.data = false)))

/-- Note: `Collaborator.objects.all()` / `Client.objects.all()` keep name order;
we only need the task and property orderings for the claims, so plain
tables are returned ordered for those two models. -/
def Property.objects_all (db : DB) : List Property :=
  List.insertionSort propertyOrder db.properties

def Task.objects_all (db : DB) : List Task :=
  List.insertionSort taskOrder db.tasks

/-! ### models.py : derived properties and transition helpers -/

/-- Embeds `Property.is_available`. -/
def Property.is_available (p : Property) : Bool :=
  decide (p.status = PropertyStatus.AVAILABLE)

/-- Embeds `Property.mark_as_sold`: sets `status` to SOLD and saves with
`update_fields=['status', 'updated_at']`; `auto_now` stamps `updated_at`
with the current time `now`. -/
def Property.mark_as_sold (p : Property) (now : Nat) : Property :=
  { p with status := PropertyStatus.SOLD, updated_at := now }

/-- Embeds `Property.mark_as_pending`. -/
def Property.mark_as_pending (p : Property) (now : Nat) : Property :=
  { p with status := PropertyStatus.PENDING, updated_at := now }

/-- Embeds `Task.is_overdue`: `due_date < date.today() and status not in
[COMPLETE, CANCELLED]`. -/
def Task.is_overdue (t : Task) (today : Nat) : Bool :=
  decide (t.due_date < today) &&
    ! decide (t.status ∈ [TaskStatus.COMPLETE, TaskStatus.CANCELLED])

/-- Embeds `Task.is_high_priority`. -/
def Task.is_high_priority (t : Task) : Bool :=
  decide (t.priority = TaskPriority.HIGH)

/-- Embeds `Task.mark_complete`. -/
def Task.mark_complete (t : Task) (now : Nat) : Task :=
  { t with status := TaskStatus.COMPLETE, updated_at := now }

/-- Embeds `Task.mark_in_progress`. -/
def Task.mark_in_progress (t : Task) (now : Nat) : Task :=
  { t with status := TaskStatus.IN_PROGRESS, updated_at := now }

/-- The reverse relation `collaborator.properties`: all Property rows whose
`collaborator` foreign key points at this collaborator. -/
def Collaborator.assigned_properties (db : DB) (cid : Nat) : List Property :=
  db.properties.filter (fun p => decide (p.collaborator = some cid))

/-- Embeds `Collaborator.active_properties_count`:
`self.properties.exclude(status=WITHDRAWN).count()`. -/
def Collaborator.active_properties_count (db : DB) (cid : Nat) : Nat :=
  ((Collaborator.assigned_properties db cid).filter
    (fun p => ! decide (p.status = PropertyStatus.WITHDRAWN))).length

/-- The reverse relation `collaborator.tasks`. -/
def Collaborator.assigned_tasks (db : DB) (cid : Nat) : List Task :=
  db.tasks.filter (fun t => decide (t.assigned_to = some cid))

/-- Embeds `Collaborator.pending_tasks_count`. -/
def Collaborator.pending_tasks_count (db : DB) (cid : Nat) : Nat :=
  ((Collaborator.assigned_tasks db cid).filter
    (fun t => decide (t.status = TaskStatus.PENDING))).length

/-! ### services.py -/

/-- Case-insensitive substring test, Django's `field__icontains=q`:
lower-case both sides and look for the needle as a contiguous substring. -/
def icontains (haystack needle : String) : Bool :=
  decide ((needle.data.map Char.toLower) <:+: (haystack.data.map Char.toLower))

/-- Embeds `PropertyService.filter_properties`: start from `objects.all()` (which
carries the default `-listing_date` ordering) and narrow with each supplied
criterion in turn.  In the source each criterion is guarded by Python
truthiness (`if status:` …); for the enum-typed criteria the falsy case is
exactly the omitted case, for the text query the empty string is also falsy
and skips the search filter. -/
def PropertyService.filter_properties (db : DB)
    (status : Option PropertyStatus) (property_type : Option PropertyType)
    (search_query : Option String) : List Property :=
  let queryset := Property.objects_all db
  let queryset :=
    match status with
    | some s => queryset.filter (fun p => decide (p.status = s))
    | none => queryset
  let queryset :=
    match property_type with
    | some ty => queryset.filter (fun p => decide (p.property_type = ty))
    | none => queryset
  let queryset :=
    match search_query with
    | some q =>
        if q.isEmpty then queryset
        else queryset.filter (fun p => icontains p.address q || icontains p.description q)
    | none => queryset
  queryset

/-- Embeds `PropertyService.get_available_properties`. -/
def PropertyService.get_available_properties (db : DB) : List Property :=
  (Property.objects_all db).filter
    (fun p => decide (p.status = PropertyStatus.AVAILABLE))

/-- Embeds `TaskService.get_pending_tasks`. -/
def TaskService.get_pending_tasks (db : DB) : List Task :=
  (Task.objects_all db).filter (fun t => decide (t.status = TaskStatus.PENDING))

/-- Embeds `TaskService.get_overdue_tasks`:
`filter(due_date__lt=date.today()).exclude(status__in=[COMPLETE, CANCELLED])`. -/
def TaskService.get_overdue_tasks (db : DB) (today : Nat) : List Task :=
  ((Task.objects_all db).filter (fun t => decide (t.due_date < today))).filter
    (fun t => ! decide (t.status ∈ [TaskStatus.COMPLETE, TaskStatus.CANCELLED]))

/-- Result shape of `CollaboratorService.get_collaborator_workload`. -/
structure Workload where
  properties : Nat
  pending_tasks : Nat
  in_progress_tasks : Nat
  deriving DecidableEq, Repr

/-- Embeds `CollaboratorService.get_collaborator_workload`: the `properties` entry
is `collaborator.properties.count()` with no status filter. -/
def CollaboratorService.get_collaborator_workload (db : DB) (cid : Nat) : Workload :=
  { properties := (Collaborator.assigned_properties db cid).length
    pending_tasks :=
      ((Collaborator.assigned_tasks db cid).filter
        (fun t => decide (t.status = TaskStatus.PENDING))).length
    in_progress_tasks :=
      ((Collaborator.assigned_tasks db cid).filter
        (fun t => decide (t.status = TaskStatus.IN_PROGRESS))).length }

/-- Result shape of `DashboardService.get_dashboard_stats`. -/
structure DashboardStats where
  property_count : Nat
  client_count : Nat
  pending_task_count : Nat
  collaborator_count : Nat
  available_properties : Nat
  overdue_tasks : Nat
  deriving DecidableEq, Repr

/-- Embeds `DashboardService.get_dashboard_stats`. -/
def DashboardService.get_dashboard_stats (db : DB) (today : Nat) : DashboardStats :=
  { property_count := db.properties.length
    client_count := db.clients.length
    pending_task_count :=
      (db.tasks.filter (fun t => decide (t.status = TaskStatus.PENDING))).length
    collaborator_count := db.collaborators.length
    available_properties :=
      (db.properties.filter (fun p => decide (p.status = PropertyStatus.AVAILABLE))).length
    overdue_tasks := (TaskService.get_overdue_tasks db today).length }

/-! ### forms.py -/

/-- A form-validation failure; `field = none` is a record-level
(non-field-specific) error, `field = some f` is scoped to field `f`. -/
structure FormError where
  field : Option String
  message : String
  deriving DecidableEq, Repr

/-- Embeds `ClientForm.clean_phone`: when a phone value is present, keep only the
digit characters and require at least `MIN_PHONE_DIGITS` of them. -/
def ClientForm.clean_phone (phone : String) : Except FormError String :=
  if phone.isEmpty then Except.ok phone
  else
    let cleaned_phone := phone.data.filter Char.isDigit
    if cleaned_phone.length < ValidationConstants.MIN_PHONE_DIGITS then
      Except.error
        { field := some "phone"
          message := "Phone number must have at least 10 digits." }
    else Except.ok phone

/-- Embeds `TaskForm.clean_due_date`: the past-due-date check fires only when the
form is bound to no existing row (`not self.instance.pk`) and a due date
was supplied. -/
def TaskForm.clean_due_date (instance_pk : Option Nat) (due_date : Option Nat)
    (today : Nat) : Except FormError (Option Nat) :=
  if instance_pk.isNone ∧ due_date.isSome ∧ due_date.getD 0 < today then
    Except.error
      { field := some "due_date"
        message := "Due date cannot be in the past for new tasks." }
  else Except.ok due_date

/-- Embeds `TaskForm.clean`: whole-record check that `related_property` and
`client` are not both set; the raised `ValidationError` is non-field
(record-level). -/
def TaskForm.clean (related_property client : Option Nat) :
    Except FormError Unit :=
  if related_property.isSome ∧ client.isSome then
    Except.error
      { field := none
        message := "A task can be assigned to either a property or a client, not both." }
  else Except.ok ()

/-- The create path of the task views: `form.is_valid()` runs the cross-field
check and only a valid form is saved, so a failing `clean` leaves the table
untouched. -/
def TaskForm.submit (db : DB) (t : Task) : Except FormError DB :=
  match TaskForm.clean t.related_property t.client with
  | Except.error e => Except.error e
  | Except.ok _ => Except.ok { db with tasks := db.tasks ++ [t] }

/-! ### Fixtures -/

def dbEmpty : DB := { collaborators := [], properties := [], clients := [], tasks := [] }

def taskBothRefs : Task :=
  { id := 1, title := "call", description := "", due_date := 10,
    status := TaskStatus.PENDING, priority := TaskPriority.MEDIUM,
    related_property := some 1, client := some 2, assigned_to := none,
    created_at := 0, updated_at := 0 }

def taskOneRef : Task :=
  { taskBothRefs with id := 2, client := none }

/-- Record-level error raised by `TaskForm.clean` when both references are set. -/
def bothReferencesError : FormError :=
  { field := none
    message := "A task can be assigned to either a property or a client, not both." }

/-! ### Theorems -/

/-- Claim C2: for every Property record, `mark_as_sold` results in
`status = SOLD`, and every other field of the record is unchanged except
the last-modified timestamp `updated_at`. -/
theorem mark_as_sold_sets_status_and_preserves_rest (p : Property) (now : Nat) :
    (p.mark_as_sold now).status = PropertyStatus.SOLD ∧
    (p.mark_as_sold now).id = p.id ∧
    (p.mark_as_sold now).address = p.address ∧
    (p.mark_as_sold now).price = p.price ∧
    (p.mark_as_sold now).property_type = p.property_type ∧
    (p.mark_as_sold now).listing_date = p.listing_date ∧
    (p.mark_as_sold now).collaborator = p.collaborator ∧
    (p.mark_as_sold now).bedrooms = p.bedrooms ∧
    (p.mark_as_sold now).bathrooms = p.bathrooms ∧
    (p.mark_as_sold now).square_feet = p.square_feet ∧
    (p.mark_as_sold now).description = p.description ∧
    (p.mark_as_sold now).created_at = p.created_at :=
  ⟨rfl, rfl, rfl, rfl, rfl, rfl, rfl, rfl, rfl, rfl, rfl, rfl⟩

/-- Claim C4: for every Task, `is_overdue` holds iff its `due_date` is
strictly before today and its status is neither COMPLETE nor CANCELLED. -/
theorem is_overdue_iff_past_and_open (t : Task) (today : Nat) :
    t.is_overdue today = true ↔
      t.due_date < today ∧
        t.status ≠ TaskStatus.COMPLETE ∧ t.status ≠ TaskStatus.CANCELLED := by
  simp [Task.is_overdue, not_or]

/-- Claim C3: a Task submitted with both a Property reference and a Client
reference fails validation with a record-level (`field = none`) error and
the write is not performed; with exactly one or neither reference set, the
cross-field check passes. -/
theorem taskform_clean_mutual_exclusion (db : DB) (t : Task) :
    (t.related_property.isSome ∧ t.client.isSome →
        TaskForm.clean t.related_property t.client =
            Except.error bothReferencesError ∧
          bothReferencesError.field = none ∧
          TaskForm.submit db t = Except.error bothReferencesError) ∧
    (¬(t.related_property.isSome ∧ t.client.isSome) →
        TaskForm.clean t.related_property t.client = Except.ok ()) := by
  constructor
  · intro h
    refine ⟨?_, rfl, ?_⟩ <;>
      simp [TaskForm.clean, TaskForm.submit, bothReferencesError, h]
  · intro h
    simp [TaskForm.clean, h]

/-- Witness for C3: a task with both references set is rejected with the
record-level error; a task with one reference passes the check. -/
theorem taskform_clean_mutual_exclusion_witness :
    TaskForm.clean (some 1) (some 2) = Except.error bothReferencesError ∧
    TaskForm.clean (some 1) none = Except.ok () :=
  ⟨((taskform_clean_mutual_exclusion dbEmpty taskBothRefs).1 (by decide)).1,
   (taskform_clean_mutual_exclusion dbEmpty taskOneRef).2 (by decide)⟩

/-- Claim C7: a past `due_date` causes validation failure exactly when the
task record does not yet exist (`instance_pk = none`); on update any due
date, past ones included, passes `clean_due_date`. -/
theorem clean_due_date_rejects_past_only_when_new (pk : Option Nat) (d today : Nat) :
    (TaskForm.clean_due_date pk (some d) today = Except.ok (some d) ↔
      ¬(pk = none ∧ d < today)) ∧
    ((∃ e, TaskForm.clean_due_date pk (some d) today = Except.error e) ↔
      pk = none ∧ d < today) := by
  rcases pk with _ | k <;> by_cases hd : d < today <;>
    simp [TaskForm.clean_due_date, hd]

/-- Claim C9: a non-empty phone passes `clean_phone` iff it contains at
least 10 digit characters; `"(555) 123-4567"` is accepted, `"123456"` is
rejected. -/
theorem clean_phone_digit_rule :
    (∀ phone : String, phone ≠ "" →
        (ClientForm.clean_phone phone = Except.ok phone ↔
          ValidationConstants.MIN_PHONE_DIGITS ≤
            (phone.data.filter Char.isDigit).length)) ∧
    ClientForm.clean_phone ("(555) 123-4567") = Except.ok ("(555) 123-4567") ∧
    (∃ e, ClientForm.clean_phone ("123456") = Except.error e) := by
  refine ⟨?_, rfl, ⟨_, rfl⟩⟩
  intro phone hne
  have hemp : phone.isEmpty = false := by
    rcases h : phone.isEmpty with _ | _
    · rfl
    · exact absurd ((String.isEmpty_iff phone).mp h) hne
  constructor
  · intro hok
    by_contra hlt
    rw [Nat.not_le] at hlt
    simp [ClientForm.clean_phone, hemp, hlt] at hok
  · intro hge
    simp [ClientForm.clean_phone, hemp, Nat.not_lt.mpr hge]

/-- Witness for C9: a bare 10-digit phone string is accepted. -/
theorem clean_phone_digit_rule_witness :
    ClientForm.clean_phone ("5551234567") = Except.ok ("5551234567") :=
  (clean_phone_digit_rule.1 ("5551234567") (by decide)).mpr (by decide)

/-- Claim C5: the overdue-tasks query returns exactly the stored Tasks for
which the model-level `is_overdue` predicate holds. -/
theorem overdue_query_matches_is_overdue (db : DB) (today : Nat) (t : Task) :
    t ∈ TaskService.get_overdue_tasks db today ↔
      t ∈ db.tasks ∧ t.is_overdue today = true := by
  unfold TaskService.get_overdue_tasks Task.objects_all
  simp [List.mem_filter, (List.perm_insertionSort taskOrder db.tasks).mem_iff,
    Task.is_overdue, and_assoc]
  tauto

/-! ### Fixture: a collaborator with a withdrawn assignment (C10) -/

def propAssignedAvail : Property :=
  { id := 1, address := "1 Elm St", price := 100, property_type := PropertyType.HOUSE,
    status := PropertyStatus.AVAILABLE, listing_date := 5, collaborator := some 1,
    bedrooms := none, bathrooms := none, square_feet := none, description := "",
    created_at := 0, updated_at := 0 }

def propAssignedWithdrawn : Property :=
  { propAssignedAvail with id := 2, status := PropertyStatus.WITHDRAWN }

def withdrawnDB : DB :=
  { collaborators := [], properties := [propAssignedAvail, propAssignedWithdrawn],
    clients := [], tasks := [] }

/-- Claim C10: the `properties` entry of the per-collaborator workload counts
every assigned Property, WITHDRAWN ones included: it decomposes as
`active_properties_count` plus the number of assigned WITHDRAWN properties,
it equals `active_properties_count` exactly when no assigned property is
WITHDRAWN, and on a collaborator with one AVAILABLE and one WITHDRAWN
assignment it is 2 while `active_properties_count` is 1. -/
theorem workload_properties_includes_withdrawn (db : DB) (cid : Nat) :
    (CollaboratorService.get_collaborator_workload db cid).properties =
      Collaborator.active_properties_count db cid +
        ((Collaborator.assigned_properties db cid).filter
            (fun p => decide (p.status = PropertyStatus.WITHDRAWN))).length ∧
    ((CollaboratorService.get_collaborator_workload db cid).properties =
        Collaborator.active_properties_count db cid ↔
      ∀ p ∈ Collaborator.assigned_properties db cid,
        p.status ≠ PropertyStatus.WITHDRAWN) ∧
    (CollaboratorService.get_collaborator_workload withdrawnDB 1).properties = 2 ∧
    Collaborator.active_properties_count withdrawnDB 1 = 1 := by
  have hsplit : (Collaborator.assigned_properties db cid).length =
      ((Collaborator.assigned_properties db cid).filter
          (fun p => ! decide (p.status = PropertyStatus.WITHDRAWN))).length +
        ((Collaborator.assigned_properties db cid).filter
          (fun p => decide (p.status = PropertyStatus.WITHDRAWN))).length := by
    rw [← List.countP_eq_length_filter, ← List.countP_eq_length_filter,
      List.length_eq_countP_add_countP
        (p := fun p => ! decide (p.status = PropertyStatus.WITHDRAWN))]
    congr 1
    refine List.countP_congr ?_
    intro x _
    cases hx : decide (x.status = PropertyStatus.WITHDRAWN) <;> simp [hx]
  refine ⟨hsplit, ?_, by decide, by decide⟩
  constructor
  · intro he p hp
    have h0 : ((Collaborator.assigned_properties db cid).filter
        (fun p => decide (p.status = PropertyStatus.WITHDRAWN))).length = 0 := by
      have hwp : (CollaboratorService.get_collaborator_workload db cid).properties =
          (Collaborator.assigned_properties db cid).length := rfl
      have hac : Collaborator.active_properties_count db cid =
          ((Collaborator.assigned_properties db cid).filter
            (fun p => ! decide (p.status = PropertyStatus.WITHDRAWN))).length := rfl
      rw [hwp, hac] at he
      omega
    rw [List.length_eq_zero, List.filter_eq_nil_iff] at h0
    simpa using h0 p hp
  · intro hall
    have h0 : ((Collaborator.assigned_properties db cid).filter
        (fun p => decide (p.status = PropertyStatus.WITHDRAWN))) = [] := by
      rw [List.filter_eq_nil_iff]
      intro a ha
      simpa using hall a ha
    have hwp : (CollaboratorService.get_collaborator_workload db cid).properties =
        (Collaborator.assigned_properties db cid).length := rfl
    have hac : Collaborator.active_properties_count db cid =
        ((Collaborator.assigned_properties db cid).filter
          (fun p => ! decide (p.status = PropertyStatus.WITHDRAWN))).length := rfl
    rw [hwp, hac]
    rw [h0] at hsplit
    simpa using hsplit

/-! ### Fixture: tasks sharing a due date (C1) -/

def taskHighOrd : Task :=
  { id := 11, title := "high", description := "", due_date := 10,
    status := TaskStatus.PENDING, priority := TaskPriority.HIGH,
    related_property := none, client := none, assigned_to := none,
    created_at := 0, updated_at := 0 }

def taskLowOrd : Task :=
  { taskHighOrd with id := 12, title := "low", priority := TaskPriority.LOW }

def taskMediumOrd : Task :=
  { taskHighOrd with id := 13, title := "medium", priority := TaskPriority.MEDIUM }

def taskEarlyOrd : Task :=
  { taskHighOrd with id := 14, title := "early", due_date := 3, priority := TaskPriority.LOW }

def orderingDB : DB :=
  { collaborators := [], properties := [], clients := [],
    tasks := [taskHighOrd, taskLowOrd, taskMediumOrd, taskEarlyOrd] }

/-- Claim C1 (refuted by the code): `Task.Meta.ordering = ['due_date',
'-priority']` sorts on the stored priority strings, which compare
byte-lexicographically, so descending order on the column is MEDIUM, LOW,
HIGH — not HIGH, MEDIUM, LOW.  On four tasks, three sharing a due date, the
earlier-due task is listed first (due date ascending holds) but the
same-date block comes out MEDIUM, LOW, HIGH. -/
theorem task_default_ordering_lists_medium_before_high :
    Task.objects_all orderingDB = [taskEarlyOrd, taskMediumOrd, taskLowOrd, taskHighOrd] ∧
    taskMediumOrd.due_date = taskHighOrd.due_date ∧
    taskLowOrd.due_date = taskHighOrd.due_date ∧
    taskMediumOrd.priority = TaskPriority.MEDIUM ∧
    taskLowOrd.priority = TaskPriority.LOW ∧
    taskHighOrd.priority = TaskPriority.HIGH := by
  decide

/-! ### Fixture: dashboard data set (C8) -/

def fxCol1 : Collaborator :=
  { id := 1, name := "Alice", email := "alice@crm.io",
    role := CollaboratorRole.AGENT, created_at := 0, updated_at := 0 }

def fxCol2 : Collaborator :=
  { fxCol1 with id := 2, name := "Bob", email := "bob@crm.io" }

def fxPropAvail : Property :=
  { id := 1, address := "2 Oak Ave", price := 250, property_type := PropertyType.CONDO,
    status := PropertyStatus.AVAILABLE, listing_date := 40, collaborator := some 1,
    bedrooms := some 2, bathrooms := none, square_feet := none, description := "",
    created_at := 0, updated_at := 0 }

def fxPropSold : Property :=
  { fxPropAvail with id := 2, address := "3 Pine Rd", status := PropertyStatus.SOLD }

def fxClient1 : Client :=
  { id := 1, name := "Carol", email := "carol@mail.io", phone := "5551234567",
    client_type := ClientType.BUYER, properties_interested := [], properties_owned := [],
    notes := "", created_date := 0, created_at := 0, updated_at := 0 }

def fxClient2 : Client :=
  { fxClient1 with id := 2, name := "Dan", email := "dan@mail.io", client_type := ClientType.SELLER }

def fxTaskFuturePending : Task :=
  { id := 21, title := "future", description := "", due_date := 150,
    status := TaskStatus.PENDING, priority := TaskPriority.MEDIUM,
    related_property := none, client := none, assigned_to := some 1,
    created_at := 0, updated_at := 0 }

def fxTaskPastPending : Task :=
  { fxTaskFuturePending with id := 22, title := "past", due_date := 50 }

def fxTaskPastComplete : Task :=
  { fxTaskFuturePending with id := 23, title := "done", due_date := 50, status := TaskStatus.COMPLETE }

def fixtureToday : Nat := 100

def fixtureDB : DB :=
  { collaborators := [fxCol1, fxCol2]
    properties := [fxPropAvail, fxPropSold]
    clients := [fxClient1, fxClient2]
    tasks := [fxTaskFuturePending, fxTaskPastPending, fxTaskPastComplete] }

/-- Claim C8: each dashboard counter equals the independently computed count
over the database state — total properties, total clients, PENDING tasks,
total collaborators, AVAILABLE properties, and tasks satisfying
`is_overdue` — and on the fixture of 2 properties (1 available, 1 sold),
2 clients, 3 tasks (future-pending, past-pending, past-complete) and
2 collaborators the counters are 2, 2, 2, 2, 1, 1. -/
theorem dashboard_stats_match_counts (db : DB) (today : Nat) :
    (DashboardService.get_dashboard_stats db today).property_count =
      db.properties.length ∧
    (DashboardService.get_dashboard_stats db today).client_count =
      db.clients.length ∧
    (DashboardService.get_dashboard_stats db today).pending_task_count =
      db.tasks.countP (fun t => decide (t.status = TaskStatus.PENDING)) ∧
    (DashboardService.get_dashboard_stats db today).collaborator_count =
      db.collaborators.length ∧
    (DashboardService.get_dashboard_stats db today).available_properties =
      db.properties.countP (fun p => decide (p.status = PropertyStatus.AVAILABLE)) ∧
    (DashboardService.get_dashboard_stats db today).overdue_tasks =
      db.tasks.countP (fun t => t.is_overdue today) ∧
    DashboardService.get_dashboard_stats fixtureDB fixtureToday =
      { property_count := 2, client_count := 2, pending_task_count := 2,
        collaborator_count := 2, available_properties := 1, overdue_tasks := 1 } := by
  refine ⟨rfl, rfl, ?_, rfl, ?_, ?_, by decide⟩
  · rw [List.countP_eq_length_filter]
    rfl
  · rw [List.countP_eq_length_filter]
    rfl
  · show (((Task.objects_all db).filter
        (fun t => decide (t.due_date < today))).filter
        (fun t => ! decide (t.status ∈ [TaskStatus.COMPLETE, TaskStatus.CANCELLED]))).length = _
    rw [← List.countP_eq_length_filter, List.countP_filter, Task.objects_all,
      (List.perm_insertionSort taskOrder db.tasks).countP_eq]
    refine List.countP_congr ?_
    intro x _
    simp [Task.is_overdue, Bool.and_comm]

/-! ### Claim C6 -/

theorem icontains_empty (s : String) : icontains s "" = true := by
  simp [icontains]

theorem searchStep_sublist (l : List Property) (q : String) :
    List.Sublist
      (if q.isEmpty then l else
        l.filter (fun p => icontains p.address q || icontains p.description q)) l := by
  split
  · exact List.Sublist.refl l
  · exact List.filter_sublist l

/-- Claim C6: `filter_properties` returns exactly the Properties satisfying
the conjunction of the supplied criteria (exact `status` match, exact
`property_type` match, case-insensitive substring match on address OR
description), an omitted criterion excludes nothing, and the result — in
particular for `status = AVAILABLE` alone — is in listing-date-descending
order. -/
theorem filter_properties_conjunction_and_order (db : DB)
    (st : Option PropertyStatus) (pt : Option PropertyType) (sq : Option String) :
    (∀ p, p ∈ PropertyService.filter_properties db st pt sq ↔
        p ∈ db.properties ∧
        (∀ s, st = some s → p.status = s) ∧
        (∀ ty, pt = some ty → p.property_type = ty) ∧
        (∀ q, sq = some q →
          (icontains p.address q || icontains p.description q) = true)) ∧
    List.Sorted propertyOrder (PropertyService.filter_properties db st pt sq) := by
  have hpm : ∀ p : Property, p ∈ Property.objects_all db ↔ p ∈ db.properties :=
    fun p => (List.perm_insertionSort propertyOrder db.properties).mem_iff
  have hsorted : List.Sorted propertyOrder (Property.objects_all db) :=
    List.sorted_insertionSort propertyOrder db.properties
  constructor
  · intro p
    rcases sq with _ | q
    · rcases st with _ | s <;> rcases pt with _ | ty <;>
        simp [PropertyService.filter_properties, List.mem_filter, hpm, and_assoc] <;>
        tauto
    · rcases hq : q.isEmpty with _ | _
      · rcases st with _ | s <;> rcases pt with _ | ty <;>
          simp [PropertyService.filter_properties, hq, List.mem_filter, hpm, and_assoc] <;>
          tauto
      · have hq' : q = "" := (String.isEmpty_iff q).mp hq
        subst hq'
        rcases st with _ | s <;> rcases pt with _ | ty <;>
          simp [PropertyService.filter_properties, hq, List.mem_filter, hpm,
            icontains_empty, and_assoc] <;>
          tauto
  · have hsub : List.Sublist (PropertyService.filter_properties db st pt sq)
        (Property.objects_all db) := by
      rcases st with _ | s <;> rcases pt with _ | ty <;> rcases sq with _ | q <;>
        simp only [PropertyService.filter_properties] <;>
        first
        | exact List.Sublist.refl _
        | exact List.filter_sublist _
        | exact (List.filter_sublist _).trans (List.filter_sublist _)
        | exact searchStep_sublist _ _
        | exact (searchStep_sublist _ _).trans (List.filter_sublist _)
        | exact (searchStep_sublist _ _).trans
            ((List.filter_sublist _).trans (List.filter_sublist _))
    exact List.Pairwise.sublist hsub hsorted

/-! ### Concrete instantiations of the universally quantified theorems -/

/-- Witness for C2: marking the fixture property sold at time 7 yields
status SOLD with the price untouched. -/
theorem mark_as_sold_witness :
    (fxPropAvail.mark_as_sold 7).status = PropertyStatus.SOLD ∧
    (fxPropAvail.mark_as_sold 7).price = fxPropAvail.price :=
  ⟨(mark_as_sold_sets_status_and_preserves_rest fxPropAvail 7).1,
   (mark_as_sold_sets_status_and_preserves_rest fxPropAvail 7).2.2.2.1⟩

/-- Witness for C4: the past-due pending fixture task is overdue. -/
theorem is_overdue_iff_witness :
    fxTaskPastPending.is_overdue fixtureToday = true :=
  (is_overdue_iff_past_and_open fxTaskPastPending fixtureToday).mpr
    ⟨by decide, by decide, by decide⟩

/-- Witness for C5: the past-due pending fixture task is returned by the
overdue-tasks query. -/
theorem overdue_query_witness :
    fxTaskPastPending ∈ TaskService.get_overdue_tasks fixtureDB fixtureToday :=
  (overdue_query_matches_is_overdue fixtureDB fixtureToday fxTaskPastPending).mpr
    ⟨by decide, by decide⟩

/-- Witness for C6: filtering the fixture by status AVAILABLE alone returns
the available fixture property. -/
theorem filter_properties_witness :
    fxPropAvail ∈ PropertyService.filter_properties fixtureDB
      (some PropertyStatus.AVAILABLE) none none :=
  ((filter_properties_conjunction_and_order fixtureDB
      (some PropertyStatus.AVAILABLE) none none).1 fxPropAvail).mpr
    ⟨by decide, (fun s hs => by cases hs; rfl), (fun ty hty => nomatch hty),
     (fun q hq => nomatch hq)⟩

/-- Witness for C7: an update (bound instance, pk 5) accepts a past due
date. -/
theorem clean_due_date_witness :
    TaskForm.clean_due_date (some 5) (some 1) 10 = Except.ok (some 1) :=
  (clean_due_date_rejects_past_only_when_new (some 5) 1 10).1.mpr (by simp)

/-- Witness for C8: the fixture counters are 2, 2, 2, 2, 1, 1. -/
theorem dashboard_stats_witness :
    DashboardService.get_dashboard_stats fixtureDB fixtureToday =
      { property_count := 2, client_count := 2, pending_task_count := 2,
        collaborator_count := 2, available_properties := 1, overdue_tasks := 1 } :=
  (dashboard_stats_match_counts dbEmpty 0).2.2.2.2.2.2

/-- Witness for C10: on the withdrawn fixture the workload property count is
2 while the active count is 1. -/
theorem workload_properties_witness :
    (CollaboratorService.get_collaborator_workload withdrawnDB 1).properties = 2 ∧
    Collaborator.active_properties_count withdrawnDB 1 = 1 :=
  ⟨(workload_properties_includes_withdrawn withdrawnDB 1).2.2.1,
   (workload_properties_includes_withdrawn withdrawnDB 1).2.2.2⟩

end CRM
